import Mathlib

/-!
Shallow embedding of the `efuse` package (files `polyfuse.go` and the
decaying-store variant) and verification of its specification claims.

Go `float64` values are idealised as real numbers, Go `int` as `ℤ`, and
`time.Time` instants as real-valued seconds, so that
`now.Sub(ts).Seconds() = now - ts`.  The pluggable store is passed in as
explicit fetch/push parameters: `fetch : Except E PolyfuseData` is the
result of `store.FetchData()` (or `setting.FetchDataFunc()`), and
`push : PolyfuseData → Option E` gives the error result of
`store.PushData d`.  Each operation returns, besides the Go results, the
snapshot it pushed (if any), so that write effects are observable.
-/

open scoped Classical

/-- The persisted snapshot of one fuse: Go struct `PolyfuseData`. -/
structure PolyfuseData where
  Request : ℝ
  Error : ℝ
  Timestamp : ℝ

/-- Go struct `PolyfuseSettings`.  The function-valued fields
(`UpdateDataFunc` etc.) are modelled as explicit parameters of the
operations that call them; `MultiLock` is carried but never read, as in
the source. -/
structure PolyfuseSettings where
  ID : String
  Rampframe : ℤ
  Timeframe : ℤ
  MaxRequest : ℤ
  MaxError : ℤ
  ErrorRate : ℤ
  MultiLock : Bool

/-- Go struct `Polyfuse`: the cached per-second decay rates and the
settings field.  The store field is modelled by the fetch/push
parameters of the operations. -/
structure Polyfuse where
  reqPerSec : ℝ
  errPerSec : ℝ
  setting : PolyfuseSettings

/-- Model of the Go conversion `int(x)` from `float64`: truncation toward zero. -/
noncomputable def goInt (x : ℝ) : ℤ :=
  if 0 ≤ x then ⌊x⌋ else ⌈x⌉

/-- Method `GetID` of `Polyfuse`: returns `f.setting.ID`. -/
def GetID (f : Polyfuse) : String :=
  f.setting.ID

/-- The `newReq` local of `GetState` (both variants): decision-path decay
of the request count, floored at 1. -/
noncomputable def getStateNewReq (f : Polyfuse) (data : PolyfuseData) (now : ℝ) : ℝ :=
  let distance := now - data.Timestamp
  let newReq := data.Request - distance * f.reqPerSec
  if newReq < 1 then 1 else newReq

/-- The `newErr` local of `GetState` (both variants): decision-path decay
of the error count, floored at 0. -/
noncomputable def getStateNewErr (f : Polyfuse) (data : PolyfuseData) (now : ℝ) : ℝ :=
  let distance := now - data.Timestamp
  let newErr := data.Error - distance * f.errPerSec
  if newErr < 0 then 0 else newErr

/-- Go function `errorShift` of the decaying-store variant, as the
proposition its boolean result decides.  `math.Pow(math.E, x)` is
`Real.exp x`. -/
def errorShift (err req errRate span ramp : ℝ) : Prop :=
  let currentRate := err / req
  let sigmoidRate := 1 / (1 + Real.exp (span * 12 / ramp - 6))
  let normaliseRate := sigmoidRate * (1 - errRate) + errRate
  currentRate > normaliseRate

/-- Method `Polyfuse.GetState` of the decaying-store variant.  Result:
(returned bool, returned error, snapshot pushed to the store if any).
On the allow path the source executes `return true, f.store.PushData(*data)`
without having mutated `data`, so the fetched snapshot is pushed back
unchanged. -/
noncomputable def GetState {E : Type} (f : Polyfuse) (fetched : Except E PolyfuseData)
    (push : PolyfuseData → Option E) (now : ℝ) :
    Bool × Option E × Option PolyfuseData :=
  match fetched with
  | .error e => (false, some e, none)
  | .ok data =>
    let newReq := getStateNewReq f data now
    let newErr := getStateNewErr f data now
    if 0 < f.setting.MaxRequest ∧ f.setting.MaxRequest ≤ goInt newReq then
      (false, none, none)
    else if 0 < f.setting.MaxError ∧ f.setting.MaxError ≤ goInt newErr then
      (false, none, none)
    else if 0 < f.setting.ErrorRate ∧
        errorShift newErr newReq ((f.setting.ErrorRate : ℝ) / 10000)
          (now - data.Timestamp) (f.setting.Rampframe : ℝ) then
      (false, none, none)
    else
      (true, push data, some data)

/-- The closure returned by `defaultPolyfuseGetState` in `polyfuse.go`,
applied to the already-fetched `data`.  Unlike the decaying-store
variant it overwrites `data` with the decayed counts and the fresh
timestamp before pushing. -/
noncomputable def defaultPolyfuseGetState {E : Type} (f : Polyfuse) (data : PolyfuseData)
    (push : PolyfuseData → Option E) (now : ℝ) :
    Bool × Option E × Option PolyfuseData :=
  let newReq := getStateNewReq f data now
  let newErr := getStateNewErr f data now
  if 0 < f.setting.MaxRequest ∧ f.setting.MaxRequest ≤ goInt newReq then
    (false, none, none)
  else if 0 < f.setting.MaxError ∧ f.setting.MaxError ≤ goInt newErr then
    (false, none, none)
  else if 0 < f.setting.ErrorRate ∧ f.setting.ErrorRate ≤ goInt (newErr / newReq * 10000) then
    (false, none, none)
  else
    let written : PolyfuseData := ⟨newReq, newErr, now⟩
    (true, push written, some written)

/-- The closure returned by `defaultPolyfuseUpdateData` (identical
arithmetic in both variants): update-path decay with request floor 0,
then the unconditional request increment and the failure-only error
increment, stamped with the current time. -/
noncomputable def defaultPolyfuseUpdateData (f : Polyfuse) (state : Bool)
    (data : PolyfuseData) (now : ℝ) : PolyfuseData :=
  let distance := now - data.Timestamp
  let newReq0 := data.Request - distance * f.reqPerSec
  let newReq := (if newReq0 < 0 then 0 else newReq0) + 1
  let newErr0 := data.Error - distance * f.errPerSec
  let newErr1 := if newErr0 < 0 then 0 else newErr0
  let newErr := if state then newErr1 else newErr1 + 1
  ⟨newReq, newErr, now⟩

/-- Method `Polyfuse.PushState`: fetch, run `f.setting.UpdateDataFunc` (passed
here as `updateDataFunc`), push.  Result: (returned error, snapshot
pushed if any). -/
def PushState {E : Type} (fetched : Except E PolyfuseData)
    (updateDataFunc : Bool → PolyfuseData → Except E PolyfuseData)
    (push : PolyfuseData → Option E) (state : Bool) :
    Option E × Option PolyfuseData :=
  match fetched with
  | .error e => (some e, none)
  | .ok data =>
    match updateDataFunc state data with
    | .error e => (some e, none)
    | .ok d => (push d, some d)

/-- Go `NewPolyfuse` (both variants): `var f Polyfuse` zero-initialises
`f.setting` and the function never assigns it, so the clamped local copy
of the `setting` parameter is dropped and the stored settings stay the
zero value (empty `ID`, all numeric fields 0).  Only the decay rates are
computed from the parameter. -/
noncomputable def NewPolyfuse (setting : PolyfuseSettings) : Polyfuse :=
  { reqPerSec := (setting.MaxRequest : ℝ) / (setting.Timeframe : ℝ)
    errPerSec := (setting.MaxError : ℝ) / (setting.Timeframe : ℝ)
    setting := ⟨"", 0, 0, 0, 0, 0, false⟩ }

/-! ### Basic facts about the decay computations -/

lemma getStateNewReq_eq (f : Polyfuse) (d : PolyfuseData) (now : ℝ) :
    getStateNewReq f d now = max 1 (d.Request - (now - d.Timestamp) * f.reqPerSec) := by
  rw [getStateNewReq]
  rcases lt_or_le (d.Request - (now - d.Timestamp) * f.reqPerSec) 1 with h | h
  · simp only [if_pos h]
    exact (max_eq_left h.le).symm
  · simp only [if_neg (not_lt.2 h)]
    exact (max_eq_right h).symm

lemma getStateNewErr_eq (f : Polyfuse) (d : PolyfuseData) (now : ℝ) :
    getStateNewErr f d now = max 0 (d.Error - (now - d.Timestamp) * f.errPerSec) := by
  rw [getStateNewErr]
  rcases lt_or_le (d.Error - (now - d.Timestamp) * f.errPerSec) 0 with h | h
  · simp only [if_pos h]
    exact (max_eq_left h.le).symm
  · simp only [if_neg (not_lt.2 h)]
    exact (max_eq_right h).symm

lemma one_le_getStateNewReq (f : Polyfuse) (d : PolyfuseData) (now : ℝ) :
    1 ≤ getStateNewReq f d now := by
  rw [getStateNewReq_eq]; exact le_max_left _ _

lemma getStateNewErr_nonneg (f : Polyfuse) (d : PolyfuseData) (now : ℝ) :
    0 ≤ getStateNewErr f d now := by
  rw [getStateNewErr_eq]; exact le_max_left _ _

lemma le_goInt_iff (n : ℤ) (x : ℝ) (hx : 0 ≤ x) : n ≤ goInt x ↔ (n : ℝ) ≤ x := by
  rw [goInt, if_pos hx]; exact Int.le_floor

lemma defaultPolyfuseUpdateData_eq (f : Polyfuse) (state : Bool) (d : PolyfuseData)
    (now : ℝ) :
    defaultPolyfuseUpdateData f state d now =
      ⟨max 0 (d.Request - (now - d.Timestamp) * f.reqPerSec) + 1,
       max 0 (d.Error - (now - d.Timestamp) * f.errPerSec) + (if state then 0 else 1),
       now⟩ := by
  rw [defaultPolyfuseUpdateData]
  have hreq : (if d.Request - (now - d.Timestamp) * f.reqPerSec < 0 then 0
      else d.Request - (now - d.Timestamp) * f.reqPerSec)
      = max 0 (d.Request - (now - d.Timestamp) * f.reqPerSec) := by
    rcases lt_or_le (d.Request - (now - d.Timestamp) * f.reqPerSec) 0 with h | h
    · rw [if_pos h, max_eq_left h.le]
    · rw [if_neg (not_lt.2 h), max_eq_right h]
  have herr : (if d.Error - (now - d.Timestamp) * f.errPerSec < 0 then 0
      else d.Error - (now - d.Timestamp) * f.errPerSec)
      = max 0 (d.Error - (now - d.Timestamp) * f.errPerSec) := by
    rcases lt_or_le (d.Error - (now - d.Timestamp) * f.errPerSec) 0 with h | h
    · rw [if_pos h, max_eq_left h.le]
    · rw [if_neg (not_lt.2 h), max_eq_right h]
  simp only [hreq, herr]
  cases state <;> simp

/-! ### C1 -/

/-- C1: for every fetched snapshot and every settings value, the decision
path evaluates the three trip conditions in order with first-match-wins:
it allows exactly when none of them fires — the request ceiling (when
`MaxRequest > 0` and the decayed request count is at least `MaxRequest`),
the error ceiling (when `MaxError > 0` and the decayed error count is at
least `MaxError`), and the error-rate condition (when `ErrorRate > 0`) —
in both `Polyfuse.GetState` and `defaultPolyfuseGetState`. -/
theorem getState_trip_condition_order {E : Type} (f : Polyfuse) (d : PolyfuseData)
    (push : PolyfuseData → Option E) (now : ℝ) :
    ((GetState f (Except.ok d) push now).1 = true ↔
      ¬(0 < f.setting.MaxRequest ∧ (f.setting.MaxRequest : ℝ) ≤ getStateNewReq f d now) ∧
      ¬(0 < f.setting.MaxError ∧ (f.setting.MaxError : ℝ) ≤ getStateNewErr f d now) ∧
      ¬(0 < f.setting.ErrorRate ∧
          errorShift (getStateNewErr f d now) (getStateNewReq f d now)
            ((f.setting.ErrorRate : ℝ) / 10000) (now - d.Timestamp)
            (f.setting.Rampframe : ℝ))) ∧
    ((defaultPolyfuseGetState f d push now).1 = true ↔
      ¬(0 < f.setting.MaxRequest ∧ (f.setting.MaxRequest : ℝ) ≤ getStateNewReq f d now) ∧
      ¬(0 < f.setting.MaxError ∧ (f.setting.MaxError : ℝ) ≤ getStateNewErr f d now) ∧
      ¬(0 < f.setting.ErrorRate ∧
          (f.setting.ErrorRate : ℝ) ≤ getStateNewErr f d now / getStateNewReq f d now * 10000)) := by
  have hreq1 : (1 : ℝ) ≤ getStateNewReq f d now := one_le_getStateNewReq f d now
  have hreq0 : (0 : ℝ) ≤ getStateNewReq f d now := zero_le_one.trans hreq1
  have herr0 : (0 : ℝ) ≤ getStateNewErr f d now := getStateNewErr_nonneg f d now
  have e1 : f.setting.MaxRequest ≤ goInt (getStateNewReq f d now) ↔
      (f.setting.MaxRequest : ℝ) ≤ getStateNewReq f d now :=
    le_goInt_iff _ _ hreq0
  have e2 : f.setting.MaxError ≤ goInt (getStateNewErr f d now) ↔
      (f.setting.MaxError : ℝ) ≤ getStateNewErr f d now :=
    le_goInt_iff _ _ herr0
  have e3 : f.setting.ErrorRate ≤ goInt (getStateNewErr f d now / getStateNewReq f d now * 10000) ↔
      (f.setting.ErrorRate : ℝ) ≤ getStateNewErr f d now / getStateNewReq f d now * 10000 :=
    le_goInt_iff _ _ (by positivity)
  constructor
  · simp only [GetState]
    split_ifs with hc1 hc2 hc3
    · simp only [Bool.false_eq_true, false_iff]
      intro h
      exact h.1 ⟨hc1.1, e1.1 hc1.2⟩
    · simp only [Bool.false_eq_true, false_iff]
      intro h
      exact h.2.1 ⟨hc2.1, e2.1 hc2.2⟩
    · simp only [Bool.false_eq_true, false_iff]
      intro h
      exact h.2.2 hc3
    · simp only [true_iff]
      refine ⟨fun h => hc1 ⟨h.1, e1.2 h.2⟩, fun h => hc2 ⟨h.1, e2.2 h.2⟩, hc3⟩
  · simp only [defaultPolyfuseGetState]
    split_ifs with hc1 hc2 hc3
    · simp only [Bool.false_eq_true, false_iff]
      intro h
      exact h.1 ⟨hc1.1, e1.1 hc1.2⟩
    · simp only [Bool.false_eq_true, false_iff]
      intro h
      exact h.2.1 ⟨hc2.1, e2.1 hc2.2⟩
    · simp only [Bool.false_eq_true, false_iff]
      intro h
      exact h.2.2 ⟨hc3.1, e3.1 hc3.2⟩
    · simp only [true_iff]
      exact ⟨fun h => hc1 ⟨h.1, e1.2 h.2⟩, fun h => hc2 ⟨h.1, e2.2 h.2⟩,
        fun h => hc3 ⟨h.1, e3.2 h.2⟩⟩

/-! ### C2 -/

/-- C2: with the rates cached by `NewPolyfuse` as `max_X / timeframe`,
decay subtracts `elapsed × rate` from the stored count, where
`elapsed = now − snapshot.Timestamp`; the decayed request count is
floored at 1 on the decision path and floored at 0 then incremented on
the update path, and the decayed error count is floored at 0 on both
paths. -/
theorem decay_formula (s : PolyfuseSettings) (d : PolyfuseData) (state : Bool) (now : ℝ)
    (hT : 0 < s.Timeframe) (hspan : 0 ≤ now - d.Timestamp) :
    getStateNewReq (NewPolyfuse s) d now
        = max 1 (d.Request - (now - d.Timestamp) * ((s.MaxRequest : ℝ) / (s.Timeframe : ℝ))) ∧
    getStateNewErr (NewPolyfuse s) d now
        = max 0 (d.Error - (now - d.Timestamp) * ((s.MaxError : ℝ) / (s.Timeframe : ℝ))) ∧
    (defaultPolyfuseUpdateData (NewPolyfuse s) state d now).Request
        = max 0 (d.Request - (now - d.Timestamp) * ((s.MaxRequest : ℝ) / (s.Timeframe : ℝ))) + 1 ∧
    (defaultPolyfuseUpdateData (NewPolyfuse s) true d now).Error
        = max 0 (d.Error - (now - d.Timestamp) * ((s.MaxError : ℝ) / (s.Timeframe : ℝ))) ∧
    (defaultPolyfuseUpdateData (NewPolyfuse s) false d now).Error
        = max 0 (d.Error - (now - d.Timestamp) * ((s.MaxError : ℝ) / (s.Timeframe : ℝ))) + 1 := by
  refine ⟨?_, ?_, ?_, ?_, ?_⟩
  · rw [getStateNewReq_eq]; rfl
  · rw [getStateNewErr_eq]; rfl
  · rw [defaultPolyfuseUpdateData_eq]; simp [NewPolyfuse]
  · rw [defaultPolyfuseUpdateData_eq]; simp [NewPolyfuse]
  · rw [defaultPolyfuseUpdateData_eq]; simp [NewPolyfuse]

/-- Witness for C2 at a concrete configuration and snapshot. -/
theorem decay_formula_witness :
    getStateNewReq (NewPolyfuse ⟨"w", 4, 10, 100, 10, 100, false⟩) ⟨5, 2, 0⟩ 1
      = max 1 (5 - (1 - 0) * ((100 : ℝ) / 10)) :=
  (decay_formula ⟨"w", 4, 10, 100, 10, 100, false⟩ ⟨5, 2, 0⟩ true 1
    (by norm_num) (by norm_num)).1

/-! ### C8 -/

/-- C8: non-negativity — the decayed request and error counts of the decision path
and the snapshot produced by the update path are non-negative in
both fields, for every input snapshot (negative stored fields included)
and every elapsed time. -/
theorem snapshot_nonneg (f : Polyfuse) (d : PolyfuseData) (state : Bool) (now : ℝ) :
    0 ≤ getStateNewReq f d now ∧ 0 ≤ getStateNewErr f d now ∧
    0 ≤ (defaultPolyfuseUpdateData f state d now).Request ∧
    0 ≤ (defaultPolyfuseUpdateData f state d now).Error := by
  refine ⟨zero_le_one.trans (one_le_getStateNewReq f d now), getStateNewErr_nonneg f d now,
    ?_, ?_⟩
  · rw [defaultPolyfuseUpdateData_eq]
    dsimp only
    have := le_max_left (0 : ℝ) (d.Request - (now - d.Timestamp) * f.reqPerSec)
    linarith
  · rw [defaultPolyfuseUpdateData_eq]
    dsimp only
    have := le_max_left (0 : ℝ) (d.Error - (now - d.Timestamp) * f.errPerSec)
    cases state <;> simp <;> linarith

/-! ### C6 -/

/-- C6: `PushState` with the default update function decays the stored
snapshot with the update flooring, always increments the request count
by exactly 1, increments the error count by exactly 1 only when the
reported state is `false`, stamps the current time, and pushes the
result; its only error is the push (or fetch) error of the store and no trip
condition is evaluated — the reported boolean never produces a deny. -/
theorem pushState_accumulates {E : Type} (f : Polyfuse) (d : PolyfuseData)
    (push : PolyfuseData → Option E) (state : Bool) (now : ℝ) :
    PushState (Except.ok d) (fun s dd => Except.ok (defaultPolyfuseUpdateData f s dd now))
        push state
      = (push (defaultPolyfuseUpdateData f state d now),
         some (defaultPolyfuseUpdateData f state d now)) ∧
    (defaultPolyfuseUpdateData f state d now).Request
      = max 0 (d.Request - (now - d.Timestamp) * f.reqPerSec) + 1 ∧
    (defaultPolyfuseUpdateData f state d now).Error
      = max 0 (d.Error - (now - d.Timestamp) * f.errPerSec) + (if state then 0 else 1) ∧
    (defaultPolyfuseUpdateData f state d now).Timestamp = now := by
  refine ⟨rfl, ?_, ?_, ?_⟩ <;> rw [defaultPolyfuseUpdateData_eq]

/-! ### C7 -/

/-- C7: `GetState` and `PushState` only fail when the store fails, and
the store error is propagated verbatim: a failed fetch makes
`GetState` return `false` with that error and no write; when the fetch
succeeds a non-`none` error from `GetState` is exactly the push error of
the allow path; `PushState` propagates the fetch error (writing
nothing), and with the default update function its only error is the
push error of the updated snapshot. -/
theorem storeError_propagation {E : Type} (f : Polyfuse) (d : PolyfuseData)
    (push : PolyfuseData → Option E) (now : ℝ) (e : E) (state : Bool)
    (updateDataFunc : Bool → PolyfuseData → Except E PolyfuseData) :
    GetState f (Except.error e) push now = (false, some e, none) ∧
    ((GetState f (Except.ok d) push now).2.1 = some e →
      (GetState f (Except.ok d) push now).1 = true ∧ push d = some e) ∧
    PushState (Except.error e) updateDataFunc push state = (some e, none) ∧
    ((PushState (Except.ok d) (fun s dd => Except.ok (defaultPolyfuseUpdateData f s dd now))
        push state).1 = some e →
      push (defaultPolyfuseUpdateData f state d now) = some e) := by
  refine ⟨rfl, ?_, rfl, fun h => h⟩
  simp only [GetState]
  split_ifs <;> simp

/-- Witness for C7: a pushing store that fails makes the allow path of
`GetState` surface exactly that error. -/
theorem storeError_propagation_witness :
    (GetState ⟨0, 0, ⟨"w", 1, 1, 0, 0, 0, false⟩⟩ (Except.ok ⟨1, 0, 0⟩)
        (fun _ => some "boom") 0).1 = true ∧
    (fun (_ : PolyfuseData) => some "boom") ⟨1, 0, 0⟩ = some "boom" :=
  (storeError_propagation ⟨0, 0, ⟨"w", 1, 1, 0, 0, 0, false⟩⟩ ⟨1, 0, 0⟩
      (fun _ => some "boom") 0 "boom" true
      (fun s dd => Except.ok (defaultPolyfuseUpdateData ⟨0, 0, ⟨"w", 1, 1, 0, 0, 0, false⟩⟩ s dd 0))).2.1
    (by simp [GetState])

/-! ### C10 -/

/-- C10: a zero decayed error count never fires the error-rate
condition: for every decayed request count ≥ 1, target rate in [0, 1],
ramp ≥ 1 and span ≥ 0, `errorShift 0 req errRate span ramp` is false. -/
theorem errorShift_zero_error (req errRate span ramp : ℝ)
    (hreq : 1 ≤ req) (h0 : 0 ≤ errRate) (h1 : errRate ≤ 1)
    (hramp : 1 ≤ ramp) (hspan : 0 ≤ span) :
    ¬ errorShift 0 req errRate span ramp := by
  rw [errorShift]
  intro h
  simp only [zero_div] at h
  have hexp : 0 < Real.exp (span * 12 / ramp - 6) := Real.exp_pos _
  have hsig : 0 < 1 / (1 + Real.exp (span * 12 / ramp - 6)) := by positivity
  nlinarith

/-- Witness for C10 at a concrete input. -/
theorem errorShift_zero_error_witness : ¬ errorShift 0 1 0 0 1 :=
  errorShift_zero_error 1 0 0 1 le_rfl le_rfl zero_le_one le_rfl le_rfl

/-! ### C9 -/

/-- C9 (refuted by the code): `NewPolyfuse` declares `var f Polyfuse`
and never assigns `f.setting`, so `GetID` returns the zero-value empty
string for every constructed fuse instead of the configured
`settings.ID`. -/
theorem newPolyfuse_getID :
    (∀ s : PolyfuseSettings, GetID (NewPolyfuse s) = "") ∧
    GetID (NewPolyfuse ⟨"my-fuse", 4, 10, 100, 10, 100, false⟩) = "" ∧
    ("my-fuse" : String) ≠ "" := by
  refine ⟨fun s => rfl, rfl, ?_⟩
  decide

/-! ### C3 -/

/-- C3: when `ErrorRate > 0` and neither ceiling check fires, the
decision path denies exactly when
`decayed_error / decayed_request` strictly exceeds
`sigmoid(span, ramp) · (1 − target_rate) + target_rate` with
`sigmoid(span, ramp) = 1 / (1 + e^(span·12/ramp − 6))`, `span` the
elapsed seconds since the snapshot timestamp and
`target_rate = ErrorRate / 10000`. -/
theorem getState_errorRate_check {E : Type} (f : Polyfuse) (d : PolyfuseData)
    (push : PolyfuseData → Option E) (now : ℝ)
    (hER : 0 < f.setting.ErrorRate)
    (hramp : 1 ≤ f.setting.Rampframe)
    (h1 : ¬(0 < f.setting.MaxRequest ∧ (f.setting.MaxRequest : ℝ) ≤ getStateNewReq f d now))
    (h2 : ¬(0 < f.setting.MaxError ∧ (f.setting.MaxError : ℝ) ≤ getStateNewErr f d now)) :
    (GetState f (Except.ok d) push now).1 = false ↔
      getStateNewErr f d now / getStateNewReq f d now >
        1 / (1 + Real.exp ((now - d.Timestamp) * 12 / (f.setting.Rampframe : ℝ) - 6))
          * (1 - (f.setting.ErrorRate : ℝ) / 10000) + (f.setting.ErrorRate : ℝ) / 10000 := by
  have hreq1 : (1 : ℝ) ≤ getStateNewReq f d now := one_le_getStateNewReq f d now
  have hreq0 : (0 : ℝ) ≤ getStateNewReq f d now := zero_le_one.trans hreq1
  have herr0 : (0 : ℝ) ≤ getStateNewErr f d now := getStateNewErr_nonneg f d now
  have h1g : ¬(0 < f.setting.MaxRequest ∧ f.setting.MaxRequest ≤ goInt (getStateNewReq f d now)) := by
    intro h
    exact h1 ⟨h.1, (le_goInt_iff _ _ hreq0).1 h.2⟩
  have h2g : ¬(0 < f.setting.MaxError ∧ f.setting.MaxError ≤ goInt (getStateNewErr f d now)) := by
    intro h
    exact h2 ⟨h.1, (le_goInt_iff _ _ herr0).1 h.2⟩
  simp only [GetState]
  rw [if_neg h1g, if_neg h2g]
  split_ifs with hc3
  · simp only [true_iff]
    have := hc3.2
    rw [errorShift] at this
    exact this
  · simp only [Bool.true_eq_false, false_iff, not_lt]
    rw [Classical.not_and_iff_or_not_not] at hc3
    rcases hc3 with h | h
    · exact absurd hER h
    · rw [errorShift] at h
      exact not_lt.1 h

/-- Witness for C3 at a concrete configuration and snapshot. -/
theorem getState_errorRate_check_witness :
    (GetState ⟨0, 0, ⟨"w3", 1, 1, 0, 0, 100, false⟩⟩ (Except.ok ⟨1, 0, 0⟩)
        (fun _ => (none : Option Unit)) 0).1 = false ↔
      getStateNewErr ⟨0, 0, ⟨"w3", 1, 1, 0, 0, 100, false⟩⟩ ⟨1, 0, 0⟩ 0 /
          getStateNewReq ⟨0, 0, ⟨"w3", 1, 1, 0, 0, 100, false⟩⟩ ⟨1, 0, 0⟩ 0 >
        1 / (1 + Real.exp ((0 - (0 : ℝ)) * 12 / ((1 : ℤ) : ℝ) - 6)) * (1 - ((100 : ℤ) : ℝ) / 10000)
          + ((100 : ℤ) : ℝ) / 10000 :=
  getState_errorRate_check ⟨0, 0, ⟨"w3", 1, 1, 0, 0, 100, false⟩⟩ ⟨1, 0, 0⟩
    (fun _ => (none : Option Unit)) 0 (by norm_num) (by norm_num)
    (by simp) (by simp)

/-! ### C4 -/

/-- C4 counterexample: with all checks disabled, `reqPerSec = 1`, a
snapshot `(5, 0, t=0)` and `now = 1`, `Polyfuse.GetState` allows and
pushes back the fetched snapshot unchanged — request count still 5
(though the decayed value is 4) and timestamp still 0 (not refreshed to
1) — refuting the claim that the decayed, time-refreshed snapshot is
persisted. -/
theorem getState_persist_decayed_cex :
    (GetState ⟨1, 0, ⟨"w4", 1, 5, 0, 0, 0, false⟩⟩ (Except.ok ⟨5, 0, 0⟩)
        (fun _ => (none : Option Unit)) 1).1 = true ∧
    (GetState ⟨1, 0, ⟨"w4", 1, 5, 0, 0, 0, false⟩⟩ (Except.ok ⟨5, 0, 0⟩)
        (fun _ => (none : Option Unit)) 1).2.2 = some ⟨5, 0, 0⟩ ∧
    getStateNewReq ⟨1, 0, ⟨"w4", 1, 5, 0, 0, 0, false⟩⟩ ⟨5, 0, 0⟩ 1 = 4 ∧
    ((5 : ℝ) ≠ 4 ∧ (0 : ℝ) ≠ 1) := by
  refine ⟨?_, ?_, ?_, by norm_num, by norm_num⟩
  · simp [GetState]
  · simp [GetState]
  · rw [getStateNewReq_eq]
    norm_num

/-- C4 (amended): on a deny neither variant writes anything; on an
allow `defaultPolyfuseGetState` (polyfuse.go) persists the decayed
snapshot with its timestamp refreshed to `now`, but `Polyfuse.GetState`
(decaying-store variant) pushes the fetched snapshot back unchanged —
no decay applied and the stored timestamp not refreshed. -/
theorem getState_persist_amended {E : Type} (f : Polyfuse) (d : PolyfuseData)
    (push : PolyfuseData → Option E) (now : ℝ) :
    ((GetState f (Except.ok d) push now).1 = true →
      (GetState f (Except.ok d) push now).2.2 = some d) ∧
    ((GetState f (Except.ok d) push now).1 = false →
      (GetState f (Except.ok d) push now).2.2 = none) ∧
    ((defaultPolyfuseGetState f d push now).1 = true →
      (defaultPolyfuseGetState f d push now).2.2
        = some ⟨getStateNewReq f d now, getStateNewErr f d now, now⟩) ∧
    ((defaultPolyfuseGetState f d push now).1 = false →
      (defaultPolyfuseGetState f d push now).2.2 = none) := by
  refine ⟨?_, ?_, ?_, ?_⟩ <;>
    first
      | (simp only [GetState]; split_ifs <;> simp)
      | (simp only [defaultPolyfuseGetState]; split_ifs <;> simp)

/-- Witness for the amended C4 statement at a concrete allow. -/
theorem getState_persist_amended_witness :
    (GetState ⟨1, 0, ⟨"w4b", 1, 5, 0, 0, 0, false⟩⟩ (Except.ok ⟨5, 0, 0⟩)
        (fun _ => (none : Option Unit)) 1).2.2 = some ⟨5, 0, 0⟩ ∧
    (defaultPolyfuseGetState ⟨1, 0, ⟨"w4b", 1, 5, 0, 0, 0, false⟩⟩ ⟨5, 0, 0⟩
        (fun _ => (none : Option Unit)) 1).2.2
      = some ⟨getStateNewReq ⟨1, 0, ⟨"w4b", 1, 5, 0, 0, 0, false⟩⟩ ⟨5, 0, 0⟩ 1,
          getStateNewErr ⟨1, 0, ⟨"w4b", 1, 5, 0, 0, 0, false⟩⟩ ⟨5, 0, 0⟩ 1, 1⟩ :=
  ⟨(getState_persist_amended ⟨1, 0, ⟨"w4b", 1, 5, 0, 0, 0, false⟩⟩ ⟨5, 0, 0⟩
      (fun _ => (none : Option Unit)) 1).1 (by simp [GetState]),
   (getState_persist_amended ⟨1, 0, ⟨"w4b", 1, 5, 0, 0, 0, false⟩⟩ ⟨5, 0, 0⟩
      (fun _ => (none : Option Unit)) 1).2.2.1 (by simp [defaultPolyfuseGetState])⟩

/-! ### C5 -/

/-- C5 counterexample: with `ErrorRate = 100` (1%), both ceilings
disabled, and a snapshot taken at `now` (span = 0) whose decayed
error/request ratio is 3, `GetState` returns `false`: at span 0 the
sigmoid is `1 / (1 + e^(−6)) < 1`, so the dampened threshold is below
100% and a large enough ratio still trips. -/
theorem getState_span0_cex :
    (GetState ⟨0, 0, ⟨"w5", 1, 1, 0, 0, 100, false⟩⟩ (Except.ok ⟨1, 3, 0⟩)
        (fun _ => (none : Option Unit)) 0).1 = false := by
  simp only [GetState]
  split_ifs with h1 h2 h3
  · rfl
  · rfl
  · rfl
  · exfalso
    apply h3
    constructor
    · norm_num
    · have e1 : getStateNewErr ⟨0, 0, ⟨"w5", 1, 1, 0, 0, 100, false⟩⟩ ⟨1, 3, 0⟩ 0 = 3 := by
        rw [getStateNewErr_eq]
        norm_num
      have e2 : getStateNewReq ⟨0, 0, ⟨"w5", 1, 1, 0, 0, 100, false⟩⟩ ⟨1, 3, 0⟩ 0 = 1 := by
        rw [getStateNewReq_eq]
        norm_num
      rw [e1, e2, errorShift]
      have hexp : 0 < Real.exp ((0 - ((⟨1, 3, 0⟩ : PolyfuseData)).Timestamp) * 12 /
          (((⟨"w5", 1, 1, 0, 0, 100, false⟩ : PolyfuseSettings)).Rampframe : ℝ) - 6) :=
        Real.exp_pos _
      have hden : (0 : ℝ) < 1 + Real.exp ((0 - ((⟨1, 3, 0⟩ : PolyfuseData)).Timestamp) * 12 /
          (((⟨"w5", 1, 1, 0, 0, 100, false⟩ : PolyfuseSettings)).Rampframe : ℝ) - 6) := by
        linarith
      have hsig : 1 / (1 + Real.exp ((0 - ((⟨1, 3, 0⟩ : PolyfuseData)).Timestamp) * 12 /
          (((⟨"w5", 1, 1, 0, 0, 100, false⟩ : PolyfuseSettings)).Rampframe : ℝ) - 6)) ≤ 1 := by
        rw [div_le_one hden]
        linarith
      show (3 : ℝ) / 1 > _
      push_cast
      nlinarith

/-- C5 (amended): with `ErrorRate = 100` (1%) and a snapshot taken at
`now` (span = 0), `GetState` returns `true` whenever the decayed
error/request ratio is at most 90% — far above the 1% steady-state
target, because `sigmoid(0, ramp) = 1 / (1 + e^(−6)) ≈ 0.9975` lifts
the effective threshold above 90% — but (unlike the claim) not for
arbitrarily large ratios, the threshold staying strictly below 100%. -/
theorem getState_span0_amended {E : Type} (f : Polyfuse) (d : PolyfuseData)
    (push : PolyfuseData → Option E)
    (hER : f.setting.ErrorRate = 100)
    (hramp : 1 ≤ f.setting.Rampframe)
    (h1 : ¬(0 < f.setting.MaxRequest ∧
        (f.setting.MaxRequest : ℝ) ≤ getStateNewReq f d d.Timestamp))
    (h2 : ¬(0 < f.setting.MaxError ∧
        (f.setting.MaxError : ℝ) ≤ getStateNewErr f d d.Timestamp))
    (hrat : getStateNewErr f d d.Timestamp / getStateNewReq f d d.Timestamp ≤ 9 / 10) :
    (GetState f (Except.ok d) push d.Timestamp).1 = true := by
  have hreq1 : (1 : ℝ) ≤ getStateNewReq f d d.Timestamp := one_le_getStateNewReq f d d.Timestamp
  have hreq0 : (0 : ℝ) ≤ getStateNewReq f d d.Timestamp := zero_le_one.trans hreq1
  have herr0 : (0 : ℝ) ≤ getStateNewErr f d d.Timestamp := getStateNewErr_nonneg f d d.Timestamp
  have h1g : ¬(0 < f.setting.MaxRequest ∧
      f.setting.MaxRequest ≤ goInt (getStateNewReq f d d.Timestamp)) := by
    intro h
    exact h1 ⟨h.1, (le_goInt_iff _ _ hreq0).1 h.2⟩
  have h2g : ¬(0 < f.setting.MaxError ∧
      f.setting.MaxError ≤ goInt (getStateNewErr f d d.Timestamp)) := by
    intro h
    exact h2 ⟨h.1, (le_goInt_iff _ _ herr0).1 h.2⟩
  simp only [GetState]
  rw [if_neg h1g, if_neg h2g, if_neg ?hc3]
  case hc3 =>
    rintro ⟨-, hes⟩
    rw [errorShift, hER] at hes
    have hc : (d.Timestamp - d.Timestamp) * 12 / (f.setting.Rampframe : ℝ) - 6 = -6 := by
      rw [sub_self, zero_mul, zero_div, zero_sub]
    rw [hc] at hes
    have hA : (4 : ℝ) ≤ Real.exp 3 := by
      have := Real.add_one_le_exp (3 : ℝ)
      linarith
    have hB : (16 : ℝ) ≤ Real.exp 6 := by
      have h36 : Real.exp 6 = Real.exp 3 * Real.exp 3 := by
        rw [← Real.exp_add]
        norm_num
      nlinarith [Real.exp_pos (3 : ℝ)]
    have hmul : Real.exp (-6 : ℝ) * Real.exp 6 = 1 := by
      rw [← Real.exp_add]
      norm_num
    have hpos : (0 : ℝ) < Real.exp (-6 : ℝ) := Real.exp_pos _
    have hC : Real.exp (-6 : ℝ) ≤ 1 / 16 := by
      nlinarith
    have hden : (0 : ℝ) < 1 + Real.exp (-6 : ℝ) := by linarith
    have hsd : 1 / (1 + Real.exp (-6 : ℝ)) * (1 + Real.exp (-6 : ℝ)) = 1 :=
      one_div_mul_cancel (ne_of_gt hden)
    have hs : (0 : ℝ) < 1 / (1 + Real.exp (-6 : ℝ)) := by positivity
    -- the effective threshold at span 0 is at least 9/10
    have hthr : 9 / 10 ≤ 1 / (1 + Real.exp (-6 : ℝ)) * (1 - ((100 : ℤ) : ℝ) / 10000)
        + ((100 : ℤ) : ℝ) / 10000 := by
      push_cast
      nlinarith
    exact absurd hes (not_lt.2 (le_trans hrat (by push_cast at hthr ⊢; linarith)))

/-- Witness for the amended C5 statement at a concrete snapshot. -/
theorem getState_span0_amended_witness :
    (GetState ⟨0, 0, ⟨"w5b", 1, 1, 0, 0, 100, false⟩⟩ (Except.ok ⟨1, 0, 0⟩)
        (fun _ => (none : Option Unit)) ((⟨1, 0, 0⟩ : PolyfuseData)).Timestamp).1 = true :=
  getState_span0_amended ⟨0, 0, ⟨"w5b", 1, 1, 0, 0, 100, false⟩⟩ ⟨1, 0, 0⟩
    (fun _ => (none : Option Unit)) rfl (by norm_num) (by simp) (by simp)
    (by rw [getStateNewErr_eq, getStateNewReq_eq]; norm_num)
